import Mathlib

/-!
Verification of the POS order lifecycle and table-status synchronization
logic.  The relational store (schema of scripts/init-db) is modelled as
lists of typed rows; each REST handler that the claims touch becomes a
function from a database state to a result, translated statement by
statement from the route sources.  Timestamps other than order creation
time are omitted; prices are modelled as exact integer amounts.
-/

deriving instance DecidableEq for Except

namespace POS

/-- Order lifecycle status, the check constraint on orders.status. -/
inductive OrderStatus
  | Pending
  | Preparing
  | Ready
  | Served
  | Paid
deriving DecidableEq

/-- Table display status, the check constraint on tables.status. -/
inductive TableStatus
  | Free
  | Occupied
  | Serving
  | Billing
deriving DecidableEq

/-- Row of the tables relation (created_at / updated_at omitted). -/
structure Table where
  id : Nat
  number : Nat
  status : TableStatus
  customerCount : Option Nat
deriving DecidableEq

/-- Row of the menu_items relation (category and image omitted: no claim
mentions them). -/
structure MenuItem where
  id : Nat
  name : String
  price : Int
  isAvailable : Bool
deriving DecidableEq

/-- Row of the orders relation; createdAt is an abstract clock value. -/
structure Order where
  id : Nat
  tableId : Nat
  totalAmount : Int
  status : OrderStatus
  staffId : Option Nat
  createdAt : Nat
deriving DecidableEq

/-- Row of the order_items relation. -/
structure OrderItem where
  id : Nat
  orderId : Nat
  menuItemId : Nat
  quantity : Nat
  unitPrice : Int
  subtotal : Int
deriving DecidableEq

/-- The database state: the four relations the claims touch, the
AUTOINCREMENT counters, and the current clock used for created_at. -/
structure DB where
  tables : List Table
  menuItems : List MenuItem
  orders : List Order
  orderItems : List OrderItem
  nextTableId : Nat
  nextOrderId : Nat
  nextOrderItemId : Nat
  now : Nat
deriving DecidableEq

/-- Client errors surfaced by the handlers: HTTP 400, 404 and 409. -/
inductive Err
  | invalidInput (msg : String)
  | notFound (msg : String)
  | conflict (msg : String)
deriving DecidableEq

/-- SELECT ... FROM tables WHERE id = ? (first matching row). -/
def lookupTable (db : DB) (id : Nat) : Option Table :=
  db.tables.find? (fun t => decide (t.id = id))

/-- SELECT ... FROM menu_items WHERE id = ? (first matching row). -/
def lookupMenuItem (db : DB) (id : Nat) : Option MenuItem :=
  db.menuItems.find? (fun m => decide (m.id = id))

/-- SELECT ... FROM orders WHERE id = ? (first matching row). -/
def lookupOrder (db : DB) (id : Nat) : Option Order :=
  db.orders.find? (fun o => decide (o.id = id))

/-- SELECT ... FROM order_items WHERE order_id = ?. -/
def orderItemsOf (db : DB) (oid : Nat) : List OrderItem :=
  db.orderItems.filter (fun oi => decide (oi.orderId = oid))

/-- SELECT ... FROM orders WHERE table_id = ? AND status != 'Paid'. -/
def activeOrdersOf (db : DB) (tid : Nat) : List Order :=
  db.orders.filter (fun o => decide (o.tableId = tid ∧ o.status ≠ OrderStatus.Paid))

/-- The statuses occurring among a table's non-Paid orders. -/
def activeStatusesOf (db : DB) (tid : Nat) : List OrderStatus :=
  (activeOrdersOf db tid).map (fun o => o.status)

/-- SUM(oi.quantity) over the join of a table's non-Paid orders with
order_items (sync-status handler); the empty join sums to 0, standing for
the NULL the SQL SUM returns. -/
def activeQuantityOf (db : DB) (tid : Nat) : Nat :=
  ((activeOrdersOf db tid).map
    (fun o => ((orderItemsOf db o.id).map (fun oi => oi.quantity)).sum)).sum

/-- UPDATE tables SET status = ? WHERE id = ?. -/
def setTableStatus (ts : List Table) (tid : Nat) (st : TableStatus) : List Table :=
  ts.map (fun t => if t.id = tid then { t with status := st } else t)

/-- JS `x || null` applied to an optional numeric foreign key: 0 is falsy
and becomes null. -/
def normFk : Option Nat → Option Nat
  | some 0 => none
  | x => x

/-- One line of the create-order request body. -/
structure ItemReq where
  id : Nat
  quantity : Nat
deriving DecidableEq

/-- The per-item loop of POST /api/orders: each entry is validated
(`!item.id || !item.quantity || item.quantity <= 0`), the referenced menu
item is fetched for its current price, and the subtotal is accumulated,
returning at the first failure exactly as the source does.  A produced
line is (menuItemId, quantity, unitPrice, subtotal). -/
def buildOrderItems (db : DB) : List ItemReq → Except Err (Int × List (Nat × Nat × Int × Int))
  | [] => .ok (0, [])
  | it :: rest =>
    if it.id = 0 ∨ it.quantity = 0 then
      .error (.invalidInput "Invalid item data")
    else
      match lookupMenuItem db it.id with
      | none => .error (.notFound ("Menu item with ID " ++ toString it.id ++ " not found"))
      | some m =>
        match buildOrderItems db rest with
        | .error e => .error e
        | .ok (total, lines) =>
          .ok (m.price * (it.quantity : Int) + total,
               (it.id, it.quantity, m.price, m.price * (it.quantity : Int)) :: lines)

/-- The order_items INSERT loop of the create-order transaction: one row
per line with consecutive AUTOINCREMENT ids. -/
def insertOrderItems (startId oid : Nat) : List (Nat × Nat × Int × Int) → List OrderItem
  | [] => []
  | (mid, q, up, sub) :: rest =>
    ⟨startId, oid, mid, q, up, sub⟩ :: insertOrderItems (startId + 1) oid rest

/-- POST /api/orders: validates the body (JS truthiness makes table id 0
and an empty items array invalid), checks the table exists, prices every
line from the current menu, then in one transaction inserts the order
(status Pending), inserts its line items, and sets the table status to
Occupied. -/
def createOrder (db : DB) (tableId : Nat) (items : List ItemReq) (staffId : Option Nat) :
    Except Err (DB × Order) :=
  if tableId = 0 ∨ items = [] then
    .error (.invalidInput "Table ID and items array are required")
  else
    match lookupTable db tableId with
    | none => .error (.notFound "Table not found")
    | some _ =>
      match buildOrderItems db items with
      | .error e => .error e
      | .ok (totalAmount, lines) =>
        let o : Order :=
          ⟨db.nextOrderId, tableId, totalAmount, OrderStatus.Pending, normFk staffId, db.now⟩
        let db1 : DB :=
          { db with
            orders := db.orders ++ [o]
            orderItems := db.orderItems ++ insertOrderItems db.nextOrderItemId o.id lines
            tables := setTableStatus db.tables tableId TableStatus.Occupied
            nextOrderId := db.nextOrderId + 1
            nextOrderItemId := db.nextOrderItemId + lines.length }
        .ok (db1, o)

/-- The database state after a create-order request: every early return in
the source happens before any write, so a failed request leaves the state
as it was. -/
def runCreateOrder (db : DB) (tableId : Nat) (items : List ItemReq) (staffId : Option Nat) : DB :=
  match createOrder db tableId items staffId with
  | .ok (db1, _) => db1
  | .error _ => db

/-- The switch of PUT /api/orders/[id] deriving the table status written
alongside an order-status change; the Paid branch counts the table's other
non-Paid orders (id != the updated order) against the orders relation as
it stands after the order-row update. -/
def inlineTableStatus (orders : List Order) (tableId orderId : Nat) : OrderStatus → TableStatus
  | .Pending => TableStatus.Occupied
  | .Preparing => TableStatus.Occupied
  | .Ready => TableStatus.Serving
  | .Served => TableStatus.Serving
  | .Paid =>
    if (orders.filter (fun o =>
        decide (o.tableId = tableId ∧ o.status ≠ OrderStatus.Paid ∧ o.id ≠ orderId))).length > 0
    then TableStatus.Occupied
    else TableStatus.Billing

/-- UPDATE orders SET status = COALESCE(?, status), staff_id =
COALESCE(?, staff_id) WHERE id = ?, as a row function. -/
def updateOrderRow (orderId : Nat) (st? : Option OrderStatus) (sf? : Option Nat) (o : Order) :
    Order :=
  if o.id = orderId then
    { o with
      status := st?.getD o.status
      staffId := match sf? with | some s => some s | none => o.staffId }
  else o

/-- The transaction body of PUT /api/orders/[id]: COALESCE-update of the
order row, then, when a status was supplied, the table-status write from
the switch above — both inside the same db.transaction in the source. -/
def updateOrderTxn (db : DB) (orderId : Nat) (st? : Option OrderStatus) (sf? : Option Nat)
    (tableId : Nat) : DB :=
  let orders1 := db.orders.map (updateOrderRow orderId st? sf?)
  let db1 : DB := { db with orders := orders1 }
  match st? with
  | none => db1
  | some s =>
    { db1 with tables := setTableStatus db1.tables tableId (inlineTableStatus db1.orders tableId orderId s) }

/-- PUT /api/orders/[id]: 404 when the order is absent, otherwise the
transaction above.  The raw status string has already been validated
against the five enum values (typed here), and JS `staffId || null` turns
a staff id of 0 into null. -/
def updateOrder (db : DB) (orderId : Nat) (st? : Option OrderStatus) (sf? : Option Nat) :
    Except Err DB :=
  match lookupOrder db orderId with
  | none => .error (.notFound "Order not found")
  | some o => .ok (updateOrderTxn db orderId st? (normFk sf?) o.tableId)

/-- The database snapshots a concurrent reader can observe around the
update handler: the state before its single transaction and the state
after it.  The source wraps the order-row update and the table-status
write in one db.transaction, so no snapshot between the two writes
exists. -/
def updateOrderSnapshots (db : DB) (orderId : Nat) (st? : Option OrderStatus) (sf? : Option Nat) :
    List DB :=
  match lookupOrder db orderId with
  | none => [db]
  | some o => [db, updateOrderTxn db orderId st? (normFk sf?) o.tableId]

/-- DELETE /api/orders/[id]: 404 when absent, 400 unless the order is
Pending, otherwise one transaction deleting the order row (the schema
cascade deletes its order_items), then, when the table has no remaining
non-Paid orders, resetting the table to Free with customer_count NULL. -/
def cancelOrder (db : DB) (orderId : Nat) : Except Err DB :=
  match lookupOrder db orderId with
  | none => .error (.notFound "Order not found")
  | some o =>
    if o.status ≠ OrderStatus.Pending then
      .error (.invalidInput "Can only cancel pending orders")
    else
      let db1 : DB :=
        { db with
          orders := db.orders.filter (fun x => decide (x.id ≠ orderId))
          orderItems := db.orderItems.filter (fun oi => decide (oi.orderId ≠ orderId)) }
      if (db1.orders.filter (fun x =>
          decide (x.tableId = o.tableId ∧ x.status ≠ OrderStatus.Paid))).length = 0 then
        .ok { db1 with tables := db1.tables.map (fun t =>
          if t.id = o.tableId then
            { t with status := TableStatus.Free, customerCount := none }
          else t) }
      else
        .ok db1

/-- The database state after a cancel request, failed requests included. -/
def runCancelOrder (db : DB) (orderId : Nat) : DB :=
  match cancelOrder db orderId with
  | .ok db1 => db1
  | .error _ => db

/-- The per-table body of POST /api/tables/sync-status: Free with NULL
customer count when the table has no non-Paid orders; Occupied when any of
them is Pending or Preparing, else Serving when any is Ready or Served,
else Occupied; the customer count is the summed line-item quantity, stored
only when truthy (the source tests `customerCount?.totalCustomers`). -/
def syncTable (db : DB) (t : Table) : Table :=
  let active := activeStatusesOf db t.id
  if active = [] then
    { t with status := TableStatus.Free, customerCount := none }
  else
    let st :=
      if active.any (fun s => decide (s = OrderStatus.Pending ∨ s = OrderStatus.Preparing)) then
        TableStatus.Occupied
      else if active.any (fun s => decide (s = OrderStatus.Ready ∨ s = OrderStatus.Served)) then
        TableStatus.Serving
      else
        TableStatus.Occupied
    let q := activeQuantityOf db t.id
    { t with status := st, customerCount := if q ≠ 0 then some q else none }

/-- POST /api/tables/sync-status: the loop over all tables; each UPDATE
touches only the row of the table being processed, and the orders and
order_items relations are never written, so the loop is the row-wise map
of the body above. -/
def syncTables (db : DB) : DB :=
  { db with tables := db.tables.map (syncTable db) }

/-- One element of the GET /api/tables/[id]/orders response: an order of
the table together with its line items. -/
structure OrderView where
  order : Order
  items : List OrderItem
deriving DecidableEq

/-- ORDER BY o.created_at DESC: newer orders come first. -/
def createdDesc (a b : Order) : Prop :=
  b.createdAt ≤ a.createdAt

instance : DecidableRel createdDesc :=
  fun a b => Nat.decLe b.createdAt a.createdAt

instance : IsTotal Order createdDesc :=
  ⟨fun a b => Nat.le_total b.createdAt a.createdAt⟩

instance : IsTrans Order createdDesc :=
  ⟨fun _ _ _ h1 h2 => Nat.le_trans h2 h1⟩

/-- GET /api/tables/[id]/orders: the table's orders with status != 'Paid',
newest first, each carrying its order_items rows; the item query joins
menu_items, so a line whose menu item row is gone would be dropped (the
schema's cascade deletes such lines, making that unreachable). -/
def getTableOrders (db : DB) (tid : Nat) : List OrderView :=
  let sorted := List.insertionSort createdDesc
    (db.orders.filter (fun o => decide (o.tableId = tid ∧ o.status ≠ OrderStatus.Paid)))
  sorted.map (fun o =>
    ⟨o, db.orderItems.filter (fun oi =>
      decide (oi.orderId = o.id ∧ (lookupMenuItem db oi.menuItemId).isSome))⟩)

/-- PUT /api/menu/[id]: rejects a non-positive price, 404 when the item is
absent, then a COALESCE update of the menu_items row alone. -/
def updateMenuItem (db : DB) (itemId : Nat) (name? : Option String) (price? : Option Int)
    (avail? : Option Bool) : Except Err DB :=
  if (match price? with | some p => decide (p ≤ 0) | none => false) then
    .error (.invalidInput "Price must be a positive number")
  else
    match lookupMenuItem db itemId with
    | none => .error (.notFound "Menu item not found")
    | some _ =>
      .ok { db with menuItems := db.menuItems.map (fun m =>
        if m.id = itemId then
          { m with
            name := name?.getD m.name
            price := price?.getD m.price
            isAvailable := avail?.getD m.isAvailable }
        else m) }

/-- DELETE /api/menu/[id]: 404 when the item is absent, otherwise deletes
the menu_items row; the schema's ON DELETE CASCADE on
order_items.menu_item_id removes every line item referencing it — there
is no guard against deleting an item still referenced by an active
order. -/
def deleteMenuItem (db : DB) (itemId : Nat) : Except Err DB :=
  match lookupMenuItem db itemId with
  | none => .error (.notFound "Menu item not found")
  | some _ =>
    .ok { db with
      menuItems := db.menuItems.filter (fun m => decide (m.id ≠ itemId))
      orderItems := db.orderItems.filter (fun oi => decide (oi.menuItemId ≠ itemId)) }

/-- POST /api/tables: a table number of 0 is falsy in JS and rejected, a
duplicate number hits the UNIQUE constraint (409), otherwise a new row is
inserted (JS `customerCount || null` turns 0 into null). -/
def createTable (db : DB) (number : Nat) (status : TableStatus) (customerCount : Option Nat) :
    Except Err (DB × Table) :=
  if number = 0 then
    .error (.invalidInput "Table number is required and must be a number")
  else if db.tables.any (fun t => decide (t.number = number)) then
    .error (.conflict "Table number already exists")
  else
    let t : Table := ⟨db.nextTableId, number, status, normFk customerCount⟩
    .ok ({ db with tables := db.tables ++ [t], nextTableId := db.nextTableId + 1 }, t)

/-- The derivation rule claim C1 states, following the spec text: a
table's status as a function of the list of its non-Paid order statuses —
Free when empty, Occupied when any is Pending or Preparing, Serving when
all are Ready or Served. -/
def specTableStatus (active : List OrderStatus) : TableStatus :=
  if active = [] then TableStatus.Free
  else if active.any (fun s => decide (s = OrderStatus.Pending ∨ s = OrderStatus.Preparing)) then
    TableStatus.Occupied
  else
    TableStatus.Serving

/-! Concrete database states used by the witnesses and counterexamples.
A `DB` literal lists tables, menu items, orders, order items, the three
AUTOINCREMENT counters and the clock. -/

/-- A table with two Pending orders (claim C1). -/
def dbC1 : DB :=
  ⟨[⟨1, 1, TableStatus.Occupied, some 2⟩], [],
   [⟨1, 1, 10, OrderStatus.Pending, none, 5⟩, ⟨2, 1, 10, OrderStatus.Pending, none, 6⟩],
   [], 2, 3, 1, 7⟩

/-- `dbC1` after PUT /api/orders/2 with status Ready. -/
def dbC1after : DB :=
  ⟨[⟨1, 1, TableStatus.Serving, some 2⟩], [],
   [⟨1, 1, 10, OrderStatus.Pending, none, 5⟩, ⟨2, 1, 10, OrderStatus.Ready, none, 6⟩],
   [], 2, 3, 1, 7⟩

/-- A Billing table with one Ready order and one menu item (claim C1 witness). -/
def dbC1w : DB :=
  ⟨[⟨1, 1, TableStatus.Billing, some 9⟩], [⟨1, "Pizza", 10, true⟩],
   [⟨1, 1, 10, OrderStatus.Ready, none, 1⟩], [], 2, 2, 1, 4⟩

/-- The table row of `dbC1w`. -/
def tblC1w : Table := ⟨1, 1, TableStatus.Billing, some 9⟩

/-- The order created on `dbC1w` by POST /api/orders. -/
def ordC1w : Order := ⟨2, 1, 10, OrderStatus.Pending, none, 4⟩

/-- `dbC1w` after that create-order request. -/
def dbC1wPost : DB :=
  ⟨[⟨1, 1, TableStatus.Occupied, some 9⟩], [⟨1, "Pizza", 10, true⟩],
   [⟨1, 1, 10, OrderStatus.Ready, none, 1⟩, ordC1w],
   [⟨1, 2, 1, 1, 10, 10⟩], 2, 3, 2, 4⟩

/-- A Serving table whose only order is Served (claim C2). -/
def dbC2 : DB :=
  ⟨[⟨1, 4, TableStatus.Serving, some 3⟩], [],
   [⟨1, 1, 10, OrderStatus.Served, none, 5⟩], [], 2, 2, 1, 6⟩

/-- The order of `dbC2`. -/
def ordC2 : Order := ⟨1, 1, 10, OrderStatus.Served, none, 5⟩

/-- `dbC2` after PUT /api/orders/1 with status Paid. -/
def dbC2after : DB :=
  ⟨[⟨1, 4, TableStatus.Billing, some 3⟩], [],
   [⟨1, 1, 10, OrderStatus.Paid, none, 5⟩], [], 2, 2, 1, 6⟩

/-- The table of `dbC2after`. -/
def tblC2 : Table := ⟨1, 4, TableStatus.Billing, some 3⟩

/-- A table with one Pending and one Ready order carrying line items
(claim C3). -/
def dbC3 : DB :=
  ⟨[⟨1, 1, TableStatus.Free, none⟩], [],
   [⟨1, 1, 10, OrderStatus.Pending, none, 1⟩, ⟨2, 1, 12, OrderStatus.Ready, none, 2⟩],
   [⟨1, 1, 1, 2, 5, 10⟩, ⟨2, 2, 1, 3, 4, 12⟩], 2, 3, 3, 5⟩

/-- The table row of `dbC3`. -/
def tblC3 : Table := ⟨1, 1, TableStatus.Free, none⟩

/-- An Occupied table whose sole Pending order has one line item
referencing menu item 1 (pre-state of the C3 counterexample). -/
def dbC3pre : DB :=
  ⟨[⟨1, 1, TableStatus.Occupied, some 1⟩], [⟨1, "Pizza", 5, true⟩],
   [⟨1, 1, 5, OrderStatus.Pending, none, 1⟩], [⟨1, 1, 1, 1, 5, 5⟩], 2, 2, 2, 2⟩

/-- `dbC3pre` after DELETE /api/menu/1: the cascade removed the active
order's only line item. -/
def dbC3x : DB :=
  ⟨[⟨1, 1, TableStatus.Occupied, some 1⟩], [],
   [⟨1, 1, 5, OrderStatus.Pending, none, 1⟩], [], 2, 2, 2, 2⟩

/-- The table row of `dbC3x`. -/
def tblC3x : Table := ⟨1, 1, TableStatus.Occupied, some 1⟩

/-- Two menu items and a free table (claim C4). -/
def dbC4 : DB :=
  ⟨[⟨1, 1, TableStatus.Free, none⟩],
   [⟨1, "Pizza", 15, true⟩, ⟨2, "Cola", 4, true⟩], [], [], 2, 1, 1, 9⟩

/-- The create-order request lines priced against `dbC4`. -/
def itemsC4 : List ItemReq := [⟨1, 2⟩, ⟨2, 1⟩]

/-- The order created on `dbC4`. -/
def ordC4 : Order := ⟨1, 1, 34, OrderStatus.Pending, none, 9⟩

/-- `dbC4` after the create-order request. -/
def dbC4post : DB :=
  ⟨[⟨1, 1, TableStatus.Occupied, none⟩],
   [⟨1, "Pizza", 15, true⟩, ⟨2, "Cola", 4, true⟩],
   [ordC4],
   [⟨1, 1, 1, 2, 15, 30⟩, ⟨2, 1, 2, 1, 4, 4⟩], 2, 2, 3, 9⟩

/-- One table and an empty menu (claim C5): every menu item reference in a
request against this state dangles. -/
def dbC5 : DB := ⟨[⟨1, 1, TableStatus.Free, none⟩], [], [], [], 2, 1, 1, 0⟩

/-- An Occupied table with a single Pending order (claim C6). -/
def dbC6 : DB :=
  ⟨[⟨1, 1, TableStatus.Occupied, none⟩], [],
   [⟨1, 1, 10, OrderStatus.Pending, none, 3⟩], [], 2, 2, 1, 4⟩

/-- The order of `dbC6`. -/
def ordC6 : Order := ⟨1, 1, 10, OrderStatus.Pending, none, 3⟩

/-- An Occupied table whose sole Pending order has a line item (claim C7). -/
def dbC7 : DB :=
  ⟨[⟨1, 1, TableStatus.Occupied, some 2⟩], [⟨1, "Pizza", 5, true⟩],
   [⟨1, 1, 10, OrderStatus.Pending, none, 1⟩], [⟨1, 1, 1, 2, 5, 10⟩], 2, 2, 2, 3⟩

/-- The order of `dbC7`. -/
def ordC7 : Order := ⟨1, 1, 10, OrderStatus.Pending, none, 1⟩

/-- A table whose only order is Preparing (claim C8). -/
def dbC8 : DB :=
  ⟨[⟨1, 1, TableStatus.Occupied, none⟩], [],
   [⟨1, 1, 10, OrderStatus.Preparing, none, 0⟩], [], 2, 2, 1, 1⟩

/-- The order of `dbC8`. -/
def ordC8 : Order := ⟨1, 1, 10, OrderStatus.Preparing, none, 0⟩

/-- A Serving table with a customer count, one menu item and one Pending
order (claim C9). -/
def dbC9 : DB :=
  ⟨[⟨1, 2, TableStatus.Serving, some 4⟩], [⟨1, "Pizza", 10, true⟩],
   [⟨1, 1, 10, OrderStatus.Pending, none, 0⟩], [⟨1, 1, 1, 1, 10, 10⟩], 2, 2, 2, 1⟩

/-- The table row of `dbC9`. -/
def tblC9 : Table := ⟨1, 2, TableStatus.Serving, some 4⟩

/-- The order created on `dbC9` by POST /api/orders. -/
def ordC9 : Order := ⟨2, 1, 10, OrderStatus.Pending, none, 1⟩

/-- `dbC9` after that create-order request. -/
def dbC9o : DB :=
  ⟨[⟨1, 2, TableStatus.Occupied, some 4⟩], [⟨1, "Pizza", 10, true⟩],
   [⟨1, 1, 10, OrderStatus.Pending, none, 0⟩, ordC9],
   [⟨1, 1, 1, 1, 10, 10⟩, ⟨2, 2, 1, 1, 10, 10⟩], 2, 3, 3, 1⟩

/-- `dbC9` after PUT /api/orders/1 with status Preparing. -/
def dbC9u : DB :=
  ⟨[⟨1, 2, TableStatus.Occupied, some 4⟩], [⟨1, "Pizza", 10, true⟩],
   [⟨1, 1, 10, OrderStatus.Preparing, none, 0⟩], [⟨1, 1, 1, 1, 10, 10⟩], 2, 2, 2, 1⟩

/-- `dbC9` after PUT /api/menu/1 with price 12. -/
def dbC9m : DB :=
  ⟨[⟨1, 2, TableStatus.Serving, some 4⟩], [⟨1, "Pizza", 12, true⟩],
   [⟨1, 1, 10, OrderStatus.Pending, none, 0⟩], [⟨1, 1, 1, 1, 10, 10⟩], 2, 2, 2, 1⟩

/-- The table created on `dbC9` by POST /api/tables with number 9. -/
def tblC9new : Table := ⟨2, 9, TableStatus.Free, none⟩

/-- `dbC9` after that create-table request. -/
def dbC9t : DB :=
  ⟨[⟨1, 2, TableStatus.Serving, some 4⟩, tblC9new], [⟨1, "Pizza", 10, true⟩],
   [⟨1, 1, 10, OrderStatus.Pending, none, 0⟩], [⟨1, 1, 1, 1, 10, 10⟩], 3, 2, 2, 1⟩

/-- Two tables; table 1 has one Paid, one Ready and one Pending order, the
latter two with line items (claim C10). -/
def dbC10 : DB :=
  ⟨[⟨1, 1, TableStatus.Serving, none⟩, ⟨2, 2, TableStatus.Free, none⟩],
   [⟨1, "Pizza", 5, true⟩],
   [⟨1, 1, 5, OrderStatus.Paid, none, 1⟩, ⟨2, 1, 5, OrderStatus.Ready, none, 2⟩,
    ⟨3, 1, 10, OrderStatus.Pending, none, 3⟩, ⟨4, 2, 5, OrderStatus.Pending, none, 4⟩],
   [⟨1, 2, 1, 1, 5, 5⟩, ⟨2, 3, 1, 2, 5, 10⟩], 3, 5, 3, 5⟩

/-! Helper lemmas about the row-level operations. -/

/-- The order-row update keeps the order id. -/
theorem updateOrderRow_id (orderId : Nat) (st? : Option OrderStatus) (sf? : Option Nat)
    (o : Order) : (updateOrderRow orderId st? sf? o).id = o.id := by
  unfold updateOrderRow
  split <;> rfl

/-- The order-row update is the identity on other rows. -/
theorem updateOrderRow_of_ne (orderId : Nat) (st? : Option OrderStatus) (sf? : Option Nat)
    (o : Order) (h : ¬o.id = orderId) : updateOrderRow orderId st? sf? o = o := by
  unfold updateOrderRow
  rw [if_neg h]

/-- Filtering after a row-wise map that fixes every selected row and
preserves selection gives the same rows as filtering the original list. -/
theorem filter_map_of_invariant {α : Type} (f : α → α) (p : α → Bool) (l : List α)
    (hp : ∀ a, p (f a) = p a) (hfix : ∀ a, p a = true → f a = a) :
    (l.map f).filter p = l.filter p := by
  induction l with
  | nil => rfl
  | cons a l ih =>
    rw [List.map_cons, List.filter_cons, List.filter_cons, hp a]
    cases h : p a with
    | false => exact ih
    | true => rw [hfix a h, ih]

/-- A row of the table-status UPDATE result whose id matches carries the
written status. -/
theorem setTableStatus_status_of_id {ts : List Table} {tid : Nat} {st : TableStatus}
    {t : Table} (h : t ∈ setTableStatus ts tid st) (hid : t.id = tid) : t.status = st := by
  unfold setTableStatus at h
  rcases List.mem_map.1 h with ⟨t0, _, rfl⟩
  by_cases h0 : t0.id = tid
  · rw [if_pos h0]
  · rw [if_neg h0] at hid
    exact absurd hid h0

/-- The table-status UPDATE preserves id, number and customer count of
every row. -/
theorem setTableStatus_preserves {ts : List Table} (tid : Nat) (st : TableStatus)
    {t : Table} (h : t ∈ ts) :
    ∃ u ∈ setTableStatus ts tid st,
      u.id = t.id ∧ u.number = t.number ∧ u.customerCount = t.customerCount := by
  refine ⟨(fun x => if x.id = tid then { x with status := st } else x) t,
    List.mem_map_of_mem _ h, ?_⟩
  by_cases h0 : t.id = tid <;> simp [h0]

/-- A successful order lookup returns a member row with the requested id. -/
theorem lookupOrder_mem {db : DB} {oid : Nat} {o : Order}
    (h : lookupOrder db oid = some o) : o ∈ db.orders ∧ o.id = oid := by
  unfold lookupOrder at h
  refine ⟨List.mem_of_find?_eq_some h, ?_⟩
  simpa using List.find?_some h

/-- With primary-key-unique order ids, any member row carrying the looked
up id is the looked up row. -/
theorem eq_of_mem_nodup_id {db : DB} {oid : Nat} {o x : Order}
    (hnodup : (db.orders.map (fun y => y.id)).Nodup)
    (hfind : lookupOrder db oid = some o)
    (hx : x ∈ db.orders) (hxid : x.id = oid) : x = o := by
  obtain ⟨ho, hoid⟩ := lookupOrder_mem hfind
  exact List.inj_on_of_nodup_map hnodup hx ho (by rw [hxid, hoid])

/-- Every status in a table's active-status list is non-Paid. -/
theorem activeStatusesOf_not_paid {db : DB} {tid : Nat} {s : OrderStatus}
    (h : s ∈ activeStatusesOf db tid) : s ≠ OrderStatus.Paid := by
  unfold activeStatusesOf activeOrdersOf at h
  rcases List.mem_map.1 h with ⟨o, ho, rfl⟩
  have hp := List.of_mem_filter ho
  simp only [decide_eq_true_eq] at hp
  exact hp.2

/-- Inversion of a successful create-order request. -/
theorem createOrder_ok_inv {db : DB} {tableId : Nat} {items : List ItemReq}
    {staffId : Option Nat} {db1 : DB} {o : Order}
    (h : createOrder db tableId items staffId = .ok (db1, o)) :
    ∃ totalAmount lines,
      buildOrderItems db items = .ok (totalAmount, lines) ∧
      (lookupTable db tableId).isSome = true ∧
      o = ⟨db.nextOrderId, tableId, totalAmount, OrderStatus.Pending, normFk staffId, db.now⟩ ∧
      db1 = { db with
        orders := db.orders ++ [o]
        orderItems := db.orderItems ++ insertOrderItems db.nextOrderItemId o.id lines
        tables := setTableStatus db.tables tableId TableStatus.Occupied
        nextOrderId := db.nextOrderId + 1
        nextOrderItemId := db.nextOrderItemId + lines.length } := by
  unfold createOrder at h
  split at h
  · simp at h
  · cases htab : lookupTable db tableId with
    | none => rw [htab] at h; simp at h
    | some t =>
      rw [htab] at h
      cases hb : buildOrderItems db items with
      | error e => rw [hb] at h; simp at h
      | ok pr =>
        obtain ⟨total, lines⟩ := pr
        rw [hb] at h
        simp only [Except.ok.injEq, Prod.mk.injEq] at h
        obtain ⟨hdb, ho⟩ := h
        subst ho
        exact ⟨total, lines, rfl, rfl, rfl, hdb.symm⟩

/-- Inversion of a successful order update. -/
theorem updateOrder_ok_inv {db : DB} {orderId : Nat} {st? : Option OrderStatus}
    {sf? : Option Nat} {db1 : DB} (h : updateOrder db orderId st? sf? = .ok db1) :
    ∃ o, lookupOrder db orderId = some o ∧
      db1 = updateOrderTxn db orderId st? (normFk sf?) o.tableId := by
  unfold updateOrder at h
  cases hf : lookupOrder db orderId with
  | none => rw [hf] at h; simp at h
  | some o =>
    rw [hf] at h
    simp only [Except.ok.injEq] at h
    exact ⟨o, rfl, h.symm⟩

/-- A successful menu-item update touches only the menu_items relation. -/
theorem updateMenuItem_frame {db : DB} {itemId : Nat} {n? : Option String} {p? : Option Int}
    {a? : Option Bool} {db1 : DB} (h : updateMenuItem db itemId n? p? a? = .ok db1) :
    db1.tables = db.tables ∧ db1.orders = db.orders ∧ db1.orderItems = db.orderItems := by
  unfold updateMenuItem at h
  split at h
  · simp at h
  · split at h
    · simp at h
    · simp only [Except.ok.injEq] at h
      subst h
      exact ⟨rfl, rfl, rfl⟩

/-- A successful create-table request appends one row and touches nothing
else. -/
theorem createTable_frame {db : DB} {num : Nat} {st : TableStatus} {cc : Option Nat}
    {db1 : DB} {t : Table} (h : createTable db num st cc = .ok (db1, t)) :
    db1.tables = db.tables ++ [t] ∧ db1.orders = db.orders ∧
      db1.orderItems = db.orderItems := by
  unfold createTable at h
  split at h
  · simp at h
  · split at h
    · simp at h
    · simp only [Except.ok.injEq, Prod.mk.injEq] at h
      obtain ⟨hdb, ht⟩ := h
      subst ht
      subst hdb
      exact ⟨rfl, rfl, rfl⟩

/-- Each produced line of the pricing loop snapshots the current menu
price of its request entry, and the accumulated total is the sum of the
line subtotals. -/
theorem buildOrderItems_spec {db : DB} {items : List ItemReq} {total : Int}
    {lines : List (Nat × Nat × Int × Int)}
    (h : buildOrderItems db items = .ok (total, lines)) :
    List.Forall₂ (fun (req : ItemReq) (ln : Nat × Nat × Int × Int) =>
        ln.1 = req.id ∧ ln.2.1 = req.quantity ∧
        (∃ m, lookupMenuItem db req.id = some m ∧ ln.2.2.1 = m.price) ∧
        ln.2.2.2 = ln.2.2.1 * (ln.2.1 : Int)) items lines ∧
      total = (lines.map (fun ln => ln.2.2.2)).sum := by
  induction items generalizing total lines with
  | nil =>
    rw [buildOrderItems] at h
    simp only [Except.ok.injEq, Prod.mk.injEq] at h
    obtain ⟨rfl, rfl⟩ := h
    exact ⟨List.Forall₂.nil, by simp⟩
  | cons it rest ih =>
    rw [buildOrderItems] at h
    split at h
    · simp at h
    · cases hm : lookupMenuItem db it.id with
      | none => rw [hm] at h; simp at h
      | some m =>
        rw [hm] at h
        cases hb : buildOrderItems db rest with
        | error e => rw [hb] at h; simp at h
        | ok pr =>
          obtain ⟨total0, lines0⟩ := pr
          rw [hb] at h
          simp only [Except.ok.injEq, Prod.mk.injEq] at h
          obtain ⟨rfl, rfl⟩ := h
          obtain ⟨hf, hsum⟩ := ih hb
          refine ⟨List.Forall₂.cons ⟨rfl, rfl, ⟨m, hm, rfl⟩, rfl⟩ hf, ?_⟩
          rw [List.map_cons, List.sum_cons, hsum]

/-- When every request entry passes shape validation and some referenced
menu item is absent, the pricing loop fails with NotFound. -/
theorem buildOrderItems_missing {db : DB} {items : List ItemReq}
    (hshape : ∀ it ∈ items, it.id ≠ 0 ∧ it.quantity ≠ 0)
    (hmiss : ∃ it ∈ items, lookupMenuItem db it.id = none) :
    ∃ msg, buildOrderItems db items = .error (Err.notFound msg) := by
  induction items with
  | nil => simp at hmiss
  | cons it rest ih =>
    obtain ⟨h1, h2⟩ := hshape it (List.mem_cons_self it rest)
    rw [buildOrderItems]
    rw [if_neg (by simp [h1, h2])]
    cases hm : lookupMenuItem db it.id with
    | none => exact ⟨"Menu item with ID " ++ toString it.id ++ " not found", rfl⟩
    | some m =>
      have hmiss2 : ∃ x ∈ rest, lookupMenuItem db x.id = none := by
        rcases hmiss with ⟨x, hx, hxn⟩
        rcases List.mem_cons.1 hx with rfl | hx2
        · rw [hm] at hxn; cases hxn
        · exact ⟨x, hx2, hxn⟩
      obtain ⟨msg, hmsg⟩ := ih (fun x hx => hshape x (List.mem_cons_of_mem _ hx)) hmiss2
      rw [hmsg]
      exact ⟨msg, rfl⟩

/-- Every row produced by the order_items INSERT loop carries the new
order's id. -/
theorem insertOrderItems_orderId {oid : Nat} :
    ∀ {lines : List (Nat × Nat × Int × Int)} {startId : Nat} {oi : OrderItem},
      oi ∈ insertOrderItems startId oid lines → oi.orderId = oid := by
  intro lines
  induction lines with
  | nil =>
    intro s oi h
    simp [insertOrderItems] at h
  | cons ln rest ih =>
    intro s oi h
    obtain ⟨mid, q, up, sub⟩ := ln
    rw [insertOrderItems] at h
    rcases List.mem_cons.1 h with rfl | h2
    · rfl
    · exact ih h2

/-- Selecting the new order's line items from the INSERT loop output keeps
every row. -/
theorem insertOrderItems_filter (oid startId : Nat) (lines : List (Nat × Nat × Int × Int)) :
    (insertOrderItems startId oid lines).filter (fun oi => decide (oi.orderId = oid))
      = insertOrderItems startId oid lines := by
  rw [List.filter_eq_self]
  intro oi h
  simp [insertOrderItems_orderId h]

/-- The subtotals stored by the INSERT loop are the line subtotals. -/
theorem insertOrderItems_map_subtotal (oid : Nat) (lines : List (Nat × Nat × Int × Int))
    (startId : Nat) :
    (insertOrderItems startId oid lines).map (fun oi => oi.subtotal)
      = lines.map (fun ln => ln.2.2.2) := by
  induction lines generalizing startId with
  | nil => rfl
  | cons ln rest ih =>
    obtain ⟨mid, q, up, sub⟩ := ln
    rw [insertOrderItems, List.map_cons, List.map_cons, ih]

/-- The pointwise pricing facts transfer from lines to the inserted
order_items rows. -/
theorem insertOrderItems_forall2 {db : DB} {items : List ItemReq}
    {lines : List (Nat × Nat × Int × Int)} (oid : Nat)
    (h : List.Forall₂ (fun (req : ItemReq) (ln : Nat × Nat × Int × Int) =>
        ln.1 = req.id ∧ ln.2.1 = req.quantity ∧
        (∃ m, lookupMenuItem db req.id = some m ∧ ln.2.2.1 = m.price) ∧
        ln.2.2.2 = ln.2.2.1 * (ln.2.1 : Int)) items lines) :
    ∀ startId, List.Forall₂ (fun (req : ItemReq) (l : OrderItem) =>
        l.orderId = oid ∧ l.menuItemId = req.id ∧ l.quantity = req.quantity ∧
        (∃ m, lookupMenuItem db req.id = some m ∧ l.unitPrice = m.price) ∧
        l.subtotal = l.unitPrice * (l.quantity : Int))
      items (insertOrderItems startId oid lines) := by
  induction h with
  | nil =>
    intro s
    rw [insertOrderItems]
    exact List.Forall₂.nil
  | @cons req ln items2 lines2 hrel hrest ih =>
    intro s
    obtain ⟨mid, q, up, sub⟩ := ln
    obtain ⟨e1, e2, ⟨m, hm, e3⟩, e4⟩ := hrel
    rw [insertOrderItems]
    exact List.Forall₂.cons ⟨rfl, e1, e2, ⟨m, hm, e3⟩, e4⟩ (ih (s + 1))

/-- The per-table sync body keeps the table id. -/
theorem syncTable_id (db : DB) (t : Table) : (syncTable db t).id = t.id := by
  unfold syncTable
  dsimp only
  split <;> rfl

/-- The bulk synchronizer does not touch the orders relation, so active
statuses read after it equal those read before. -/
theorem activeStatusesOf_syncTables (db : DB) (tid : Nat) :
    activeStatusesOf (syncTables db) tid = activeStatusesOf db tid := rfl

/-- The status written by the per-table sync body coincides with the
spec's derivation rule: the dead else branch of the source (a non-empty
active set none of whose members is Pending, Preparing, Ready or Served)
is unreachable because active orders are never Paid. -/
theorem syncTable_status (db : DB) (t : Table) :
    (syncTable db t).status = specTableStatus (activeStatusesOf db t.id) := by
  unfold syncTable specTableStatus
  by_cases h0 : activeStatusesOf db t.id = []
  · simp [h0]
  · by_cases h1 : ∃ s ∈ activeStatusesOf db t.id,
        s = OrderStatus.Pending ∨ s = OrderStatus.Preparing
    · simp [h0, h1]
    · have h2 : ∃ s ∈ activeStatusesOf db t.id,
          s = OrderStatus.Ready ∨ s = OrderStatus.Served := by
        obtain ⟨s, hs⟩ := List.exists_mem_of_ne_nil _ h0
        refine ⟨s, hs, ?_⟩
        have hnp := activeStatusesOf_not_paid hs
        have hnpp : ¬(s = OrderStatus.Pending ∨ s = OrderStatus.Preparing) :=
          fun hc => h1 ⟨s, hs, hc⟩
        cases s <;> simp_all
      simp [h0, h1, h2]

/-- The spec's derivation rule yields Occupied whenever a Pending order is
present. -/
theorem specTableStatus_occupied_of_pending {l : List OrderStatus}
    (h : OrderStatus.Pending ∈ l) : specTableStatus l = TableStatus.Occupied := by
  unfold specTableStatus
  rw [if_neg (List.ne_nil_of_mem h), if_pos]
  exact List.any_eq_true.2 ⟨_, h, by simp⟩

/-! Claim theorems. -/

/-- Claim C2: for every existing order, updating its status to Paid sets
the owning table's status to Billing if no other non-Paid order remains
for that table, and to Occupied otherwise. -/
theorem paid_update_billing_or_occupied (db : DB) (orderId : Nat) (o : Order)
    (sf? : Option Nat) (db2 : DB)
    (hfind : lookupOrder db orderId = some o)
    (hrun : updateOrder db orderId (some OrderStatus.Paid) sf? = .ok db2) :
    ∀ t ∈ db2.tables, t.id = o.tableId →
      t.status =
        if (db.orders.filter (fun x => decide (x.tableId = o.tableId ∧
            x.status ≠ OrderStatus.Paid ∧ x.id ≠ orderId))).length = 0
        then TableStatus.Billing else TableStatus.Occupied := by
  obtain ⟨o2, hfind2, hdb2⟩ := updateOrder_ok_inv hrun
  rw [hfind] at hfind2
  injection hfind2 with ho2
  subst ho2
  subst hdb2
  intro t ht htid
  unfold updateOrderTxn at ht
  dsimp only at ht
  have hst := setTableStatus_status_of_id ht htid
  rw [hst]
  simp only [inlineTableStatus]
  have hfilter : ((db.orders.map
        (updateOrderRow orderId (some OrderStatus.Paid) (normFk sf?))).filter
        (fun x => decide (x.tableId = o.tableId ∧ x.status ≠ OrderStatus.Paid ∧ x.id ≠ orderId)))
      = db.orders.filter
        (fun x => decide (x.tableId = o.tableId ∧ x.status ≠ OrderStatus.Paid ∧ x.id ≠ orderId)) := by
    apply filter_map_of_invariant
    · intro a
      by_cases ha : a.id = orderId
      · simp [updateOrderRow, ha]
      · rw [updateOrderRow_of_ne _ _ _ _ ha]
    · intro a hpa
      simp only [decide_eq_true_eq] at hpa
      exact updateOrderRow_of_ne _ _ _ _ hpa.2.2
  rw [hfilter]
  by_cases hlen : (db.orders.filter (fun x => decide (x.tableId = o.tableId ∧
      x.status ≠ OrderStatus.Paid ∧ x.id ≠ orderId))).length = 0
  · rw [if_neg (by omega), if_pos hlen]
  · rw [if_pos (Nat.pos_of_ne_zero hlen), if_neg hlen]

/-- Witness for C2: paying the sole Served order of table 1 in `dbC2`
drives the table row to the Billing branch of the rule. -/
theorem paid_update_billing_or_occupied_witness :
    tblC2.status =
      if (dbC2.orders.filter (fun x => decide (x.tableId = ordC2.tableId ∧
          x.status ≠ OrderStatus.Paid ∧ x.id ≠ 1))).length = 0
      then TableStatus.Billing else TableStatus.Occupied :=
  paid_update_billing_or_occupied dbC2 1 ordC2 none dbC2after (by decide) (by decide)
    tblC2 (by decide) (by decide)

/-- Claim C6: the order-row write and the derived table-status write of an
order status update happen in one atomic unit: no observable snapshot
shows the order carrying its new status without the whole transaction
(table write included) having been applied. -/
theorem update_order_atomic (db : DB) (orderId : Nat) (o : Order) (s : OrderStatus)
    (sf? : Option Nat)
    (hnodup : (db.orders.map (fun y => y.id)).Nodup)
    (hfind : lookupOrder db orderId = some o)
    (hchange : o.status ≠ s) :
    ∀ m ∈ updateOrderSnapshots db orderId (some s) sf?,
      (∃ x ∈ m.orders, x.id = orderId ∧ x.status = s) →
        m = updateOrderTxn db orderId (some s) (normFk sf?) o.tableId := by
  intro m hm hex
  unfold updateOrderSnapshots at hm
  rw [hfind] at hm
  simp only [List.mem_cons, List.mem_singleton, List.not_mem_nil, or_false] at hm
  rcases hm with rfl | rfl
  · obtain ⟨x, hx, hxid, hxs⟩ := hex
    have hxo := eq_of_mem_nodup_id hnodup hfind hx hxid
    rw [hxo] at hxs
    exact absurd hxs hchange
  · rfl

/-- Witness for C6: in `dbC6` the only snapshot showing order 1 as Ready
is the completed transaction. -/
theorem update_order_atomic_witness :
    updateOrderTxn dbC6 1 (some OrderStatus.Ready) none 1 ∈
      updateOrderSnapshots dbC6 1 (some OrderStatus.Ready) none ∧
    updateOrderTxn dbC6 1 (some OrderStatus.Ready) none 1
      = updateOrderTxn dbC6 1 (some OrderStatus.Ready) none ordC6.tableId :=
  ⟨by decide,
   update_order_atomic dbC6 1 ordC6 OrderStatus.Ready none (by decide) (by decide) (by decide)
     (updateOrderTxn dbC6 1 (some OrderStatus.Ready) none 1) (by decide) (by decide)⟩

/-- Claim C7: cancelling a Pending order deletes the order row and
exactly its line items; when the table is left with no non-Paid orders
its row is reset to Free with a cleared customer count, and otherwise the
tables relation is untouched. -/
theorem cancel_pending_spec (db : DB) (orderId : Nat) (o : Order)
    (hfind : lookupOrder db orderId = some o)
    (hpending : o.status = OrderStatus.Pending) :
    ∃ db1, cancelOrder db orderId = .ok db1 ∧
      db1.orders = db.orders.filter (fun x => decide (x.id ≠ orderId)) ∧
      db1.orderItems = db.orderItems.filter (fun oi => decide (oi.orderId ≠ orderId)) ∧
      db1.menuItems = db.menuItems ∧
      (((db.orders.filter (fun x => decide (x.id ≠ orderId))).filter (fun x =>
          decide (x.tableId = o.tableId ∧ x.status ≠ OrderStatus.Paid))).length = 0 →
        db1.tables = db.tables.map (fun t =>
          if t.id = o.tableId then
            { t with status := TableStatus.Free, customerCount := none }
          else t)) ∧
      (((db.orders.filter (fun x => decide (x.id ≠ orderId))).filter (fun x =>
          decide (x.tableId = o.tableId ∧ x.status ≠ OrderStatus.Paid))).length ≠ 0 →
        db1.tables = db.tables) := by
  unfold cancelOrder
  rw [hfind]
  dsimp only
  rw [if_neg (by simp [hpending])]
  by_cases hrem : ((db.orders.filter (fun x => decide (x.id ≠ orderId))).filter (fun x =>
      decide (x.tableId = o.tableId ∧ x.status ≠ OrderStatus.Paid))).length = 0
  · rw [if_pos hrem]
    exact ⟨_, rfl, rfl, rfl, rfl, fun _ => rfl, fun hc => absurd hrem hc⟩
  · rw [if_neg hrem]
    exact ⟨_, rfl, rfl, rfl, rfl, fun hc => absurd hc hrem, fun _ => rfl⟩

/-- Witness for C7: cancelling the sole Pending order of `dbC7`. -/
theorem cancel_pending_spec_witness :
    ∃ db1, cancelOrder dbC7 1 = .ok db1 ∧
      db1.orders = dbC7.orders.filter (fun x => decide (x.id ≠ 1)) ∧
      db1.orderItems = dbC7.orderItems.filter (fun oi => decide (oi.orderId ≠ 1)) ∧
      db1.menuItems = dbC7.menuItems ∧
      (((dbC7.orders.filter (fun x => decide (x.id ≠ 1))).filter (fun x =>
          decide (x.tableId = ordC7.tableId ∧ x.status ≠ OrderStatus.Paid))).length = 0 →
        db1.tables = dbC7.tables.map (fun t =>
          if t.id = ordC7.tableId then
            { t with status := TableStatus.Free, customerCount := none }
          else t)) ∧
      (((dbC7.orders.filter (fun x => decide (x.id ≠ 1))).filter (fun x =>
          decide (x.tableId = ordC7.tableId ∧ x.status ≠ OrderStatus.Paid))).length ≠ 0 →
        db1.tables = dbC7.tables) :=
  cancel_pending_spec dbC7 1 ordC7 (by decide) (by decide)

/-- Counterexample for C8: the rejection message the handler actually
returns is "Can only cancel pending orders", not the claimed "only
pending orders may be cancelled". -/
theorem cancel_message_counterexample :
    cancelOrder dbC8 1 = .error (Err.invalidInput "Can only cancel pending orders") ∧
    Err.invalidInput "Can only cancel pending orders"
      ≠ Err.invalidInput "only pending orders may be cancelled" ∧
    runCancelOrder dbC8 1 = dbC8 := by decide

/-- Claim C8 (amended): cancelling a non-Pending order fails with the
InvalidInput error "Can only cancel pending orders" and changes nothing;
cancelling a non-existent order fails with NotFound. -/
theorem cancel_reject_spec (db : DB) (orderId : Nat) :
    (∀ o, lookupOrder db orderId = some o → o.status ≠ OrderStatus.Pending →
      cancelOrder db orderId = .error (Err.invalidInput "Can only cancel pending orders") ∧
      runCancelOrder db orderId = db) ∧
    (lookupOrder db orderId = none →
      cancelOrder db orderId = .error (Err.notFound "Order not found") ∧
      runCancelOrder db orderId = db) := by
  constructor
  · intro o hf hns
    have h1 : cancelOrder db orderId
        = .error (Err.invalidInput "Can only cancel pending orders") := by
      unfold cancelOrder
      rw [hf]
      dsimp only
      rw [if_pos hns]
    refine ⟨h1, ?_⟩
    unfold runCancelOrder
    rw [h1]
  · intro hf
    have h1 : cancelOrder db orderId = .error (Err.notFound "Order not found") := by
      unfold cancelOrder
      rw [hf]
    refine ⟨h1, ?_⟩
    unfold runCancelOrder
    rw [h1]

/-- Witness for C8 (amended): rejecting the cancellation of the Preparing
order of `dbC8` and of an absent order id. -/
theorem cancel_reject_spec_witness :
    (cancelOrder dbC8 1 = .error (Err.invalidInput "Can only cancel pending orders") ∧
      runCancelOrder dbC8 1 = dbC8) ∧
    (cancelOrder dbC8 77 = .error (Err.notFound "Order not found") ∧
      runCancelOrder dbC8 77 = dbC8) :=
  ⟨(cancel_reject_spec dbC8 1).1 ordC8 (by decide) (by decide),
   (cancel_reject_spec dbC8 77).2 (by decide)⟩

/-- The spec's derivation rule yields Occupied whenever some status is
Pending or Preparing. -/
theorem specTableStatus_occupied {l : List OrderStatus}
    (h : ∃ s ∈ l, s = OrderStatus.Pending ∨ s = OrderStatus.Preparing) :
    specTableStatus l = TableStatus.Occupied := by
  obtain ⟨s, hs, hsp⟩ := h
  unfold specTableStatus
  rw [if_neg (List.ne_nil_of_mem hs), if_pos]
  exact List.any_eq_true.2 ⟨s, hs, by simpa using hsp⟩

/-- The spec's derivation rule yields Serving for a non-empty status list
whose members are all Ready or Served. -/
theorem specTableStatus_serving {l : List OrderStatus} (hne : l ≠ [])
    (hall : ∀ s ∈ l, s = OrderStatus.Ready ∨ s = OrderStatus.Served) :
    specTableStatus l = TableStatus.Serving := by
  unfold specTableStatus
  rw [if_neg hne, if_neg]
  intro hc
  obtain ⟨s, hs, hp⟩ := List.any_eq_true.1 hc
  rcases hall s hs with rfl | rfl <;> simp at hp

/-- The spec's derivation rule never yields Free on a non-empty list. -/
theorem specTableStatus_ne_free {l : List OrderStatus} (h : l ≠ []) :
    specTableStatus l ≠ TableStatus.Free := by
  unfold specTableStatus
  rw [if_neg h]
  split <;> decide

/-- The spec's derivation rule never yields Billing. -/
theorem specTableStatus_ne_billing (l : List OrderStatus) :
    specTableStatus l ≠ TableStatus.Billing := by
  unfold specTableStatus
  split
  · decide
  · split <;> decide

/-- The customer count written by the per-table sync body. -/
theorem syncTable_count (db : DB) (t : Table) :
    (syncTable db t).customerCount
      = if activeStatusesOf db t.id = [] then none
        else if activeQuantityOf db t.id ≠ 0 then some (activeQuantityOf db t.id) else none := by
  unfold syncTable
  by_cases h0 : activeStatusesOf db t.id = [] <;> simp [h0]

/-- Counterexample for C1: after the completed status update that marks
order 2 of `dbC1` Ready, the stored status of table 1 is Serving although
its non-Paid orders are one Pending and one Ready, from which the claimed
rule derives Occupied; the bulk resync applied to the same orders stores
Occupied, so two states with the same multiset of non-Paid order statuses
carry different stored statuses. -/
theorem table_status_not_derivable_counterexample :
    updateOrder dbC1 2 (some OrderStatus.Ready) none = .ok dbC1after ∧
    activeStatusesOf dbC1after 1 = [OrderStatus.Pending, OrderStatus.Ready] ∧
    lookupTable dbC1after 1 = some ⟨1, 1, TableStatus.Serving, some 2⟩ ∧
    specTableStatus (activeStatusesOf dbC1after 1) = TableStatus.Occupied ∧
    activeStatusesOf (syncTables dbC1after) 1 = activeStatusesOf dbC1after 1 ∧
    lookupTable (syncTables dbC1after) 1 = some ⟨1, 1, TableStatus.Occupied, none⟩ := by
  decide

/-- Claim C1 (amended): the bulk resync establishes, for every table,
that the stored status equals the one derived from the table's non-Paid
orders (Free when none, Occupied when any is Pending or Preparing,
Serving when all are Ready or Served), and a successful order creation
establishes it for the owning table; the per-order status update and the
cancellation do not maintain this invariant. -/
theorem table_status_derivable_after_sync_and_create :
    (∀ db : DB, ∀ u ∈ (syncTables db).tables,
        u.status = specTableStatus (activeStatusesOf (syncTables db) u.id)) ∧
    (∀ db tableId items staffId db1 o,
        createOrder db tableId items staffId = .ok (db1, o) →
        ∀ u ∈ db1.tables, u.id = tableId →
          u.status = specTableStatus (activeStatusesOf db1 tableId)) := by
  constructor
  · intro db u hu
    rcases List.mem_map.1 hu with ⟨t, ht, rfl⟩
    rw [activeStatusesOf_syncTables, syncTable_id, syncTable_status]
  · intro db tableId items staffId db1 o hco u hu hid
    obtain ⟨total, lines, hb, htab, ho, hdb1⟩ := createOrder_ok_inv hco
    subst hdb1
    have hocc : u.status = TableStatus.Occupied := setTableStatus_status_of_id hu hid
    rw [hocc]
    refine (specTableStatus_occupied_of_pending ?_).symm
    refine List.mem_map.2 ⟨o, List.mem_filter.2 ⟨?_, ?_⟩, ?_⟩
    · exact List.mem_append_right _ (List.mem_singleton_self o)
    · rw [ho]
      simp
    · rw [ho]

/-- Witness for C1 (amended): resyncing `dbC1w` realigns its Billing
table with the derived status, and creating an order on `dbC1w` makes
the owning table carry the derived status. -/
theorem table_status_derivable_witness :
    (syncTable dbC1w tblC1w).status
      = specTableStatus (activeStatusesOf (syncTables dbC1w) (syncTable dbC1w tblC1w).id) ∧
    (⟨1, 1, TableStatus.Occupied, some 9⟩ : Table).status
      = specTableStatus (activeStatusesOf dbC1wPost 1) :=
  ⟨table_status_derivable_after_sync_and_create.1 dbC1w _ (by decide),
   table_status_derivable_after_sync_and_create.2 dbC1w 1 [⟨1, 1⟩] none dbC1wPost ordC1w
     (by decide) _ (by decide) (by decide)⟩

/-- Counterexample for C3: deleting menu item 1 cascades away the only
line item of the still-Pending order of `dbC3pre`; resyncing the table in
the resulting state stores Occupied — not Free — yet clears the customer
count (the SQL SUM over the empty join is NULL, which the truthiness test
does not store), so the count is not set to the sum even though the
resulting status is not Free. -/
theorem sync_count_counterexample :
    deleteMenuItem dbC3pre 1 = .ok dbC3x ∧
    activeStatusesOf dbC3x tblC3x.id = [OrderStatus.Pending] ∧
    (syncTable dbC3x tblC3x).status = TableStatus.Occupied ∧
    (syncTable dbC3x tblC3x).status ≠ TableStatus.Free ∧
    activeQuantityOf dbC3x tblC3x.id = 0 ∧
    (syncTable dbC3x tblC3x).customerCount = none ∧
    (syncTable dbC3x tblC3x).customerCount ≠ some (activeQuantityOf dbC3x tblC3x.id) ∧
    syncTable dbC3x tblC3x ∈ (syncTables dbC3x).tables := by
  decide

/-- Claim C3 (amended): one bulk-resync pass gives a table Free exactly
when it has no non-Paid orders, Occupied when any non-Paid order is
Pending or Preparing (taking precedence), Serving when its non-Paid
orders are all Ready or Served; when the result is not Free the customer
count is set to the summed line-item quantity of the non-Paid orders if
that sum is non-zero and cleared if the sum is zero (a non-Free table
whose non-Paid orders have no line items, reachable through menu-item
cascade deletion, gets a cleared count); a Free result always clears the
count; resync never writes Billing. -/
theorem sync_tables_spec (db : DB) (t : Table)
    (hmem : t ∈ db.tables) :
    syncTable db t ∈ (syncTables db).tables ∧
    (activeStatusesOf db t.id = [] →
      (syncTable db t).status = TableStatus.Free ∧ (syncTable db t).customerCount = none) ∧
    ((∃ s ∈ activeStatusesOf db t.id, s = OrderStatus.Pending ∨ s = OrderStatus.Preparing) →
      (syncTable db t).status = TableStatus.Occupied) ∧
    (activeStatusesOf db t.id ≠ [] ∧
        (∀ s ∈ activeStatusesOf db t.id, s = OrderStatus.Ready ∨ s = OrderStatus.Served) →
      (syncTable db t).status = TableStatus.Serving) ∧
    ((syncTable db t).status ≠ TableStatus.Free → activeQuantityOf db t.id ≠ 0 →
      (syncTable db t).customerCount = some (activeQuantityOf db t.id)) ∧
    ((syncTable db t).status ≠ TableStatus.Free → activeQuantityOf db t.id = 0 →
      (syncTable db t).customerCount = none) ∧
    ((syncTable db t).status = TableStatus.Free →
      (syncTable db t).customerCount = none) ∧
    (syncTable db t).status ≠ TableStatus.Billing := by
  have hstat := syncTable_status db t
  have hcount := syncTable_count db t
  refine ⟨List.mem_map_of_mem _ hmem, ?_, ?_, ?_, ?_, ?_, ?_, ?_⟩
  · intro h0
    constructor
    · rw [hstat, h0]
      rfl
    · rw [hcount, if_pos h0]
  · intro h1
    rw [hstat]
    exact specTableStatus_occupied h1
  · intro h2
    rw [hstat]
    exact specTableStatus_serving h2.1 h2.2
  · intro hnf hqne
    rw [hstat] at hnf
    have h0 : activeStatusesOf db t.id ≠ [] := by
      intro hc
      rw [hc] at hnf
      exact hnf rfl
    rw [hcount, if_neg h0, if_pos hqne]
  · intro hnf hq0
    rw [hstat] at hnf
    have h0 : activeStatusesOf db t.id ≠ [] := by
      intro hc
      rw [hc] at hnf
      exact hnf rfl
    rw [hcount, if_neg h0, if_neg (fun hc => hc hq0)]
  · intro hf
    rw [hstat] at hf
    by_cases h0 : activeStatusesOf db t.id = []
    · rw [hcount, if_pos h0]
    · exact absurd hf (specTableStatus_ne_free h0)
  · rw [hstat]
    exact specTableStatus_ne_billing _

/-- Witness for C3 (amended): resyncing table 1 of `dbC3` (one Pending
and one Ready order, quantities 2 and 3) yields Occupied with customer
count 5. -/
theorem sync_tables_spec_witness :
    (syncTable dbC3 tblC3).status = TableStatus.Occupied ∧
    (syncTable dbC3 tblC3).customerCount = some (activeQuantityOf dbC3 tblC3.id) := by
  have h := sync_tables_spec dbC3 tblC3 (by decide)
  exact ⟨h.2.2.1 (by decide), h.2.2.2.2.1 (by decide) (by decide)⟩

/-- Claim C4: a successful create-order request persists, for each
request line, a unit price equal to the referenced menu item's price at
creation time and a subtotal equal to unit price times quantity, and an
order total equal to the sum of the line subtotals; a later menu-item
update (price changes included) leaves the stored orders and line items
unchanged.  The freshness hypothesis is the AUTOINCREMENT guarantee that
no existing line item references the not-yet-used next order id. -/
theorem create_order_price_snapshot (db : DB) (tableId : Nat) (items : List ItemReq)
    (staffId : Option Nat) (db1 : DB) (o : Order)
    (hfresh : ∀ oi ∈ db.orderItems, oi.orderId ≠ db.nextOrderId)
    (hco : createOrder db tableId items staffId = .ok (db1, o)) :
    o ∈ db1.orders ∧
    List.Forall₂ (fun (req : ItemReq) (l : OrderItem) =>
        l.orderId = o.id ∧ l.menuItemId = req.id ∧ l.quantity = req.quantity ∧
        (∃ m, lookupMenuItem db req.id = some m ∧ l.unitPrice = m.price) ∧
        l.subtotal = l.unitPrice * (l.quantity : Int))
      items (orderItemsOf db1 o.id) ∧
    o.totalAmount = ((orderItemsOf db1 o.id).map (fun l => l.subtotal)).sum ∧
    (∀ itemId n? p? a? db2, updateMenuItem db1 itemId n? p? a? = .ok db2 →
        db2.orders = db1.orders ∧ db2.orderItems = db1.orderItems) := by
  obtain ⟨total, lines, hb, htab, ho, hdb1⟩ := createOrder_ok_inv hco
  have hoid : o.id = db.nextOrderId := by rw [ho]
  have hitems : orderItemsOf db1 o.id = insertOrderItems db.nextOrderItemId o.id lines := by
    rw [hdb1]
    unfold orderItemsOf
    dsimp only
    rw [List.filter_append, hoid]
    have hold : db.orderItems.filter (fun oi => decide (oi.orderId = db.nextOrderId)) = [] := by
      rw [List.filter_eq_nil_iff]
      intro oi hoi
      simp only [decide_eq_true_eq]
      exact hfresh oi hoi
    rw [hold, List.nil_append, insertOrderItems_filter]
  refine ⟨?_, ?_, ?_, ?_⟩
  · rw [hdb1]
    exact List.mem_append_right _ (List.mem_singleton_self o)
  · rw [hitems]
    exact insertOrderItems_forall2 o.id (buildOrderItems_spec hb).1 db.nextOrderItemId
  · have htot : o.totalAmount = total := by rw [ho]
    rw [htot, hitems, insertOrderItems_map_subtotal]
    exact (buildOrderItems_spec hb).2
  · intro itemId n? p? a? db2 h
    exact ⟨(updateMenuItem_frame h).2.1, (updateMenuItem_frame h).2.2⟩

/-- Witness for C4: the order created on `dbC4` from two Pizza at 15 and
one Cola at 4 is stored with total 34, the sum of its line subtotals. -/
theorem create_order_price_snapshot_witness :
    ordC4 ∈ dbC4post.orders ∧
    ordC4.totalAmount = ((orderItemsOf dbC4post ordC4.id).map (fun l => l.subtotal)).sum :=
  have h := create_order_price_snapshot dbC4 1 itemsC4 none dbC4post ordC4
    (by decide) (by decide)
  ⟨h.1, h.2.2.1⟩

/-- Counterexample for C5: the request [{id 5, quantity 0}] against
`dbC5` references the non-existent menu item 5, yet the handler rejects
it with InvalidInput ("Invalid item data", HTTP 400) rather than
NotFound, because this entry's shape check (zero quantity) fires before
its menu lookup; nothing is persisted. -/
theorem create_order_missing_item_counterexample :
    lookupMenuItem dbC5 5 = none ∧
    createOrder dbC5 1 [⟨5, 0⟩] none = .error (Err.invalidInput "Invalid item data") ∧
    runCreateOrder dbC5 1 [⟨5, 0⟩] none = dbC5 := by
  decide

/-- Claim C5 (amended): a create-order request whose entries all pass
shape validation (non-zero menu item id and quantity) and whose table id
is non-zero, referencing at least one non-existent menu item, fails with
NotFound and persists nothing: no order row, no line items, no table
change — every failing return precedes the transaction. -/
theorem create_order_missing_item_notFound (db : DB) (tableId : Nat)
    (items : List ItemReq) (staffId : Option Nat)
    (hshape : ∀ it ∈ items, it.id ≠ 0 ∧ it.quantity ≠ 0)
    (hmiss : ∃ it ∈ items, lookupMenuItem db it.id = none)
    (htid : tableId ≠ 0) :
    (∃ msg, createOrder db tableId items staffId = .error (Err.notFound msg)) ∧
    runCreateOrder db tableId items staffId = db := by
  have hne : items ≠ [] := by
    rcases hmiss with ⟨it, hit, _⟩
    exact List.ne_nil_of_mem hit
  have main : ∃ msg, createOrder db tableId items staffId = .error (Err.notFound msg) := by
    unfold createOrder
    rw [if_neg (by simp [htid, hne])]
    cases htt : lookupTable db tableId with
    | none => exact ⟨"Table not found", rfl⟩
    | some t =>
      obtain ⟨msg, hmsg⟩ := buildOrderItems_missing hshape hmiss
      rw [hmsg]
      exact ⟨msg, rfl⟩
  refine ⟨main, ?_⟩
  obtain ⟨msg, hmsg⟩ := main
  unfold runCreateOrder
  rw [hmsg]

/-- Witness for C5 (amended): the well-formed request [{id 5, quantity
1}] against `dbC5` fails with NotFound and leaves the state unchanged. -/
theorem create_order_missing_item_notFound_witness :
    (∃ msg, createOrder dbC5 1 [⟨5, 1⟩] none = .error (Err.notFound msg)) ∧
    runCreateOrder dbC5 1 [⟨5, 1⟩] none = dbC5 :=
  create_order_missing_item_notFound dbC5 1 [⟨5, 1⟩] none (by decide) (by decide) (by decide)

/-- Claim C9: a successful order creation rewrites the owning table's
status to Occupied unconditionally while preserving its id, number and
customer count and leaving every other table row untouched; and neither
order creation, order status update, menu-item update nor table creation
writes any existing table's customer count — the bulk resync, the order
cancellation and the direct table update are the only writers. -/
theorem create_order_table_frame :
    (∀ db tableId items staffId db1 o,
        createOrder db tableId items staffId = .ok (db1, o) →
        db1.tables = setTableStatus db.tables tableId TableStatus.Occupied ∧
        (∀ u ∈ db1.tables, u.id = tableId → u.status = TableStatus.Occupied) ∧
        (∀ t ∈ db.tables, ∃ u ∈ db1.tables,
          u.id = t.id ∧ u.number = t.number ∧ u.customerCount = t.customerCount)) ∧
    (∀ db orderId st? sf? db1, updateOrder db orderId st? sf? = .ok db1 →
        ∀ t ∈ db.tables, ∃ u ∈ db1.tables,
          u.id = t.id ∧ u.number = t.number ∧ u.customerCount = t.customerCount) ∧
    (∀ db itemId n? p? a? db1, updateMenuItem db itemId n? p? a? = .ok db1 →
        db1.tables = db.tables) ∧
    (∀ db num st cc db1 t, createTable db num st cc = .ok (db1, t) →
        ∀ u ∈ db.tables, u ∈ db1.tables) := by
  refine ⟨?_, ?_, ?_, ?_⟩
  · intro db tableId items staffId db1 o hco
    obtain ⟨total, lines, hb, htab, ho, hdb1⟩ := createOrder_ok_inv hco
    subst hdb1
    refine ⟨rfl, ?_, ?_⟩
    · intro u hu hid
      exact setTableStatus_status_of_id hu hid
    · intro t ht
      exact setTableStatus_preserves tableId TableStatus.Occupied ht
  · intro db orderId st? sf? db1 hup
    obtain ⟨o, hfind, hdb1⟩ := updateOrder_ok_inv hup
    subst hdb1
    intro t ht
    unfold updateOrderTxn
    dsimp only
    cases st? with
    | none => exact ⟨t, ht, rfl, rfl, rfl⟩
    | some s => exact setTableStatus_preserves _ _ ht
  · intro db itemId n? p? a? db1 h
    exact (updateMenuItem_frame h).1
  · intro db num st cc db1 t h u hu
    rw [(createTable_frame h).1]
    exact List.mem_append_left _ hu

/-- Witness for C9: on `dbC9`, creating an order keeps table 1's customer
count at 4 while forcing Occupied; a status update, a menu price change
and a table creation preserve the stored counts as well. -/
theorem create_order_table_frame_witness :
    (dbC9o.tables = setTableStatus dbC9.tables 1 TableStatus.Occupied ∧
      (∃ u ∈ dbC9o.tables,
        u.id = tblC9.id ∧ u.number = tblC9.number ∧ u.customerCount = tblC9.customerCount)) ∧
    (∃ u ∈ dbC9u.tables,
      u.id = tblC9.id ∧ u.number = tblC9.number ∧ u.customerCount = tblC9.customerCount) ∧
    dbC9m.tables = dbC9.tables ∧
    tblC9 ∈ dbC9t.tables :=
  have h := create_order_table_frame
  have h1 := h.1 dbC9 1 [⟨1, 1⟩] none dbC9o ordC9 (by decide)
  ⟨⟨h1.1, h1.2.2 tblC9 (by decide)⟩,
   h.2.1 dbC9 1 (some OrderStatus.Preparing) none dbC9u (by decide) tblC9 (by decide),
   h.2.2.1 dbC9 1 none (some 12) none dbC9m (by decide),
   h.2.2.2 dbC9 9 TableStatus.Free none dbC9t tblC9new (by decide) tblC9 (by decide)⟩

/-- Claim C10: the table order listing returns exactly the table's
non-Paid orders (Paid ones are excluded), sorted by creation time
descending, each row carrying all of the order's line items; the
hypothesis is the schema's referential integrity for the menu_items join
(the cascade deletes a line item together with its menu item). -/
theorem get_table_orders_spec (db : DB) (tid : Nat)
    (hfk : ∀ oi ∈ db.orderItems, (lookupMenuItem db oi.menuItemId).isSome = true) :
    ((getTableOrders db tid).map (fun v => v.order)).Perm
      (db.orders.filter (fun o => decide (o.tableId = tid ∧ o.status ≠ OrderStatus.Paid))) ∧
    (∀ v ∈ getTableOrders db tid,
      v.items = db.orderItems.filter (fun oi => decide (oi.orderId = v.order.id))) ∧
    List.Sorted createdDesc ((getTableOrders db tid).map (fun v => v.order)) := by
  have hmap : (getTableOrders db tid).map (fun v => v.order)
      = List.insertionSort createdDesc (db.orders.filter
          (fun o => decide (o.tableId = tid ∧ o.status ≠ OrderStatus.Paid))) := by
    unfold getTableOrders
    dsimp only
    rw [List.map_map]
    exact List.map_id _
  refine ⟨?_, ?_, ?_⟩
  · rw [hmap]
    exact List.perm_insertionSort _ _
  · intro v hv
    unfold getTableOrders at hv
    dsimp only at hv
    rcases List.mem_map.1 hv with ⟨o, ho, rfl⟩
    dsimp only
    refine List.filter_congr ?_
    intro oi hoi
    simp [hfk oi hoi]
  · rw [hmap]
    exact List.sorted_insertionSort createdDesc _

/-- Witness for C10: the listing for table 1 of `dbC10` is a permutation
of its two non-Paid orders in descending creation order. -/
theorem get_table_orders_spec_witness :
    ((getTableOrders dbC10 1).map (fun v => v.order)).Perm
      (dbC10.orders.filter (fun o => decide (o.tableId = 1 ∧ o.status ≠ OrderStatus.Paid))) ∧
    List.Sorted createdDesc ((getTableOrders dbC10 1).map (fun v => v.order)) :=
  have h := get_table_orders_spec dbC10 1 (by decide)
  ⟨h.1, h.2.2⟩

end POS
